import Mathlib

/-!
Verification of the DINE_KOT_SYNC service: a shallow embedding of the
request handlers in `sync/views.py` and the launcher helpers in
`SyncService.py`, with theorems checking the behavioural claims of the
specification against the code.

Conventions of the embedding:
* Python strings are Lean `String`s; `str.strip`, `str.split(sep, 1)`,
  `str.startswith` are re-implemented below on `List Char` so that every
  definition evaluates inside the kernel.
* Time is a `Nat` count of seconds (`datetime.utcnow()` at the moment of
  the call); `timedelta(days=7)` is `7 * 86400` seconds.
* The PyJWT library is modelled by the inductive `Tok`: a token string
  either represents a structurally valid token signed with some secret
  and algorithm and carrying the payload `{sub, exp}` (the only payload
  this program ever creates), or it is malformed.  `jwtDecode` mirrors
  `jwt.decode`: signature check first (wrong secret/algorithm or a
  malformed string raises `PyJWTError`), then the expiry check
  (`ExpiredSignatureError` when `exp <= now`).
* The database is an explicit function argument: for the query endpoints
  it maps the effective filter (the parameter of the single SELECT, or
  `none` for the unfiltered SELECT) to `Except`-style rows, for `login`
  it maps the two bound parameters to the `fetchone` result.  SQL values
  are `Option String` (`NULL` or a scalar rendered as a string).
-/

namespace DineKot

/-! ## Python string primitives -/

/-- The whitespace characters removed by Python's `str.strip()`. -/
def pySpace (c : Char) : Bool :=
  c = ' ' || c = '\t' || c = '\n' || c = '\r' || c = Char.ofNat 11 || c = Char.ofNat 12

/-- Drop leading whitespace from a character list. -/
def dropSpace : List Char → List Char
  | [] => []
  | c :: cs => if pySpace c then dropSpace cs else c :: cs

/-- Python `s.strip()`: remove leading and trailing whitespace. -/
def pyStrip (s : String) : String :=
  ⟨(dropSpace ((dropSpace s.data).reverse)).reverse⟩

/-- Split at the first occurrence of `sep`, Python `s.split(sep, 1)`:
`some (before, after)` when `sep` occurs, `none` otherwise (which also
decides Python's `sep in s`). -/
def breakAt (sep : Char) : List Char → Option (List Char × List Char)
  | [] => none
  | c :: cs =>
    if c = sep then some ([], cs)
    else
      match breakAt sep cs with
      | none => none
      | some (a, b) => some (c :: a, b)

/-- Python `s.startswith(p)`. -/
def strHasPre (p s : String) : Bool :=
  List.isPrefixOf p.data s.data

/-! ## Environment lookups (module constants of `sync/views.py`)

The process environment is a function `String → Option String`
(`none` = variable unset). -/

/-- Python `os.getenv(key, dflt)`: the default applies only when the
variable is unset, not when it is set to the empty string. -/
def pyGetenv (env : String → Option String) (key dflt : String) : String :=
  (env key).getD dflt

/-- `PAIR_PASSWORD = os.getenv("PAIR_PASSWORD", "IMC-MOBILE")`. -/
def PAIR_PASSWORD (env : String → Option String) : String :=
  pyGetenv env "PAIR_PASSWORD" "IMC-MOBILE"

/-- `JWT_SECRET = os.getenv("JWT_SECRET") or "dev-secret-change-me"`:
Python `or` replaces both `None` and the empty string by the default. -/
def JWT_SECRET (env : String → Option String) : String :=
  match env "JWT_SECRET" with
  | none => "dev-secret-change-me"
  | some s => if s = "" then "dev-secret-change-me" else s

/-- `JWT_ALGO = os.getenv("JWT_ALGO", "HS256")`. -/
def JWT_ALGO (env : String → Option String) : String :=
  pyGetenv env "JWT_ALGO" "HS256"

/-! ## JWT model -/

/-- What a token string represents: either a structurally valid JWT
carrying payload `{sub, exp}` signed with a secret and algorithm, or a
malformed/unsigned string. -/
inductive Tok where
  | signed (sub : String) (exp : Nat) (secret : String) (algo : String)
  | malformed (s : String)
deriving DecidableEq

/-- Outcome of `jwt.decode(token, JWT_SECRET, algorithms=[JWT_ALGO])`. -/
inductive DecodeResult where
  | ok (sub : String)
  | expired
  | invalid
deriving DecidableEq

/-- `_decode` in `sync/views.py` via PyJWT: a malformed string or a bad
signature (wrong secret or algorithm) raises `PyJWTError`
(`.invalid`); a well-signed token past its expiry raises
`ExpiredSignatureError` (`.expired`); otherwise the payload's `sub`
is returned. -/
def jwtDecode (secret algo : String) (now : Nat) : Tok → DecodeResult
  | Tok.signed sub exp s a =>
    if s = secret && a = algo then
      if exp ≤ now then DecodeResult.expired else DecodeResult.ok sub
    else DecodeResult.invalid
  | Tok.malformed _ => DecodeResult.invalid

/-- `_extract_token`: the `Authorization` header (defaulted to `""` when
absent) must start with `"Bearer "`; the token is everything after the
first space (`hdr.split(" ", 1)[1]`). -/
def extract_token (hdr : String) : Option String :=
  if strHasPre "Bearer " hdr then
    match breakAt ' ' hdr.data with
    | some (_, rest) => some ⟨rest⟩
    | none => none
  else none

/-- Outcome of the `jwt_required` decorator. -/
inductive AuthOutcome where
  | tokenMissing
  | tokenExpired
  | tokenInvalid
  | proceed (sub : String)
deriving DecidableEq

/-- `jwt_required`: extract the bearer token (a missing or empty
extraction is "Token missing"), decode it (`interp` gives the meaning of
the wire string), and dispatch on the result. -/
def jwt_required (secret algo : String) (now : Nat) (interp : String → Tok)
    (hdr : String) : AuthOutcome :=
  match extract_token hdr with
  | none => AuthOutcome.tokenMissing
  | some t =>
    if t = "" then AuthOutcome.tokenMissing
    else
      match jwtDecode secret algo now (interp t) with
      | DecodeResult.expired => AuthOutcome.tokenExpired
      | DecodeResult.invalid => AuthOutcome.tokenInvalid
      | DecodeResult.ok sub => AuthOutcome.proceed sub

/-- The HTTP status and `detail` body that `jwt_required` answers on each
failure; `none` when the wrapped view runs. -/
def authStatusDetail : AuthOutcome → Option (Nat × String)
  | AuthOutcome.tokenMissing => some (401, "Token missing")
  | AuthOutcome.tokenExpired => some (401, "Token expired")
  | AuthOutcome.tokenInvalid => some (401, "Invalid token")
  | AuthOutcome.proceed _ => none

/-! ## `login` -/

/-- The parsed JSON body of a login request: `data.get("userid")` and
`data.get("password")` (`none` when the key is absent or null). -/
structure LoginBody where
  userid : Option String
  password : Option String

/-- Responses of the `login` view. -/
inductive LoginResp where
  | invalidJson
  | missingField
  | dbError (msg : String)
  | invalidCredentials
  | success (user_id : String) (token : Tok)
deriving DecidableEq

/-- HTTP status of each `login` response. -/
def loginStatus : LoginResp → Nat
  | LoginResp.invalidJson => 400
  | LoginResp.missingField => 400
  | LoginResp.dbError _ => 500
  | LoginResp.invalidCredentials => 401
  | LoginResp.success _ _ => 200

/-- `login` in `sync/views.py`.  `body` is the result of parsing the
request body (`Except.error` = `json.loads` failed → "Invalid JSON");
`db u p` is the `fetchone` of
`SELECT id, pass FROM acc_users WHERE id = ? AND pass = ?` with bound
parameters `u, p` (`Except.error` = any DB exception).  On a matching
row the issued token has payload
`{"sub": userid, "exp": utcnow + timedelta(days=7)}` signed with
`JWT_SECRET` / `JWT_ALGO`, and the response carries `row[0]`. -/
def login (secret algo : String) (now : Nat)
    (db : String → String → Except String (Option (String × String)))
    (body : Except Unit LoginBody) : LoginResp :=
  match body with
  | Except.error _ => LoginResp.invalidJson
  | Except.ok data =>
    let userid := pyStrip (data.userid.getD "")
    let password := pyStrip (data.password.getD "")
    if userid = "" || password = "" then LoginResp.missingField
    else
      match db userid password with
      | Except.error e => LoginResp.dbError e
      | Except.ok none => LoginResp.invalidCredentials
      | Except.ok (some row) =>
        LoginResp.success row.1 (Tok.signed userid (now + 7 * 86400) secret algo)

/-! ## `pair_check` -/

/-- Responses of the `pair_check` view. -/
inductive PairResp where
  | invalidJson
  | invalidPassword
  | exeNotFound
  | alreadyRunning
  | launched
  | launchFailed (msg : String)
deriving DecidableEq

/-- HTTP status of each `pair_check` response. -/
def pairStatus : PairResp → Nat
  | PairResp.invalidJson => 400
  | PairResp.invalidPassword => 401
  | PairResp.exeNotFound => 404
  | PairResp.alreadyRunning => 200
  | PairResp.launched => 200
  | PairResp.launchFailed _ => 500

/-- `pair_check` in `sync/views.py`.  `body` is the parsed JSON body's
`data.get("password")`; the submitted value is compared with
`data.get("password") != PAIR_PASSWORD` (exact, case-sensitive string
equality; an absent key gives `None`, which never equals the
configured string).  `exeExists`, `running` and `launch` stand for the
filesystem probe for `SyncService.exe`, the process scan and the
`subprocess.Popen` outcome. -/
def pair_check (pairPwd : String) (body : Except Unit (Option String))
    (exeExists running : Bool) (launch : Except String Unit) : PairResp :=
  match body with
  | Except.error _ => PairResp.invalidJson
  | Except.ok pwd =>
    if pwd ≠ some pairPwd then PairResp.invalidPassword
    else if !exeExists then PairResp.exeNotFound
    else if running then PairResp.alreadyRunning
    else
      match launch with
      | Except.ok _ => PairResp.launched
      | Except.error e => PairResp.launchFailed e

/-! ## Query endpoints

Each handler receives the database as a function from the effective
filter of its single SELECT (`none` = the unfiltered query) to the
`fetchall` outcome, and the optional query-string parameter. -/

/-- A row of the 11-column items SELECT, accessed positionally
(`r[0]` … `r[10]`). -/
structure Row11 where
  c0 : Option String
  c1 : Option String
  c2 : Option String
  c3 : Option String
  c4 : Option String
  c5 : Option String
  c6 : Option String
  c7 : Option String
  c8 : Option String
  c9 : Option String
  c10 : Option String
deriving DecidableEq

/-- A row of the 3-column dine-tables SELECT. -/
structure Row3 where
  c0 : Option String
  c1 : Option String
  c2 : Option String
deriving DecidableEq

/-- A row of the 2-column user-settings / dine-categories SELECTs. -/
structure Row2 where
  c0 : Option String
  c1 : Option String
deriving DecidableEq

/-- The named record built from an items row. -/
structure Item where
  item_code : Option String
  item_name : Option String
  rate : Option String
  rate1 : Option String
  rate2 : Option String
  kitchen : Option String
  activity : Option String
  image : Option String
  category : Option String
  taxper : Option String
  longname : Option String
deriving DecidableEq

/-- The named record built from a dine-tables row. -/
structure DineTable where
  tableno : Option String
  description : Option String
  /-- the JSON key `section` (a reserved word in Lean) -/
  section_ : Option String
deriving DecidableEq

/-- The named record built from a user-settings row. -/
structure UserSetting where
  uid : Option String
  code : Option String
deriving DecidableEq

/-- The named record built from a dine-categories row. -/
structure Category where
  catagorycode : Option String
  name : Option String
deriving DecidableEq

/-- Positional shaping of an items row: fields `r[0]` … `r[10]` in
source order (`r[8]` is the joined category name). -/
def shapeItem (r : Row11) : Item :=
  ⟨r.c0, r.c1, r.c2, r.c3, r.c4, r.c5, r.c6, r.c7, r.c8, r.c9, r.c10⟩

/-- Positional shaping of a dine-tables row. -/
def shapeTable (r : Row3) : DineTable :=
  ⟨r.c0, r.c1, r.c2⟩

/-- Positional shaping of a user-settings row. -/
def shapeSetting (r : Row2) : UserSetting :=
  ⟨r.c0, r.c1⟩

/-- Positional shaping of a dine-categories row. -/
def shapeCategory (r : Row2) : Category :=
  ⟨r.c0, r.c1⟩

/-- Body of a query endpoint's response: `{status:"success", count, …}`
or `{status:"error", detail}`. -/
inductive QueryResp (α : Type) where
  | success (count : Nat) (data : List α)
  | dbFailure (detail : String)
deriving DecidableEq

/-- HTTP status of a query endpoint response (Django's default 200 on
success, explicit 500 on the except branch). -/
def queryStatus {α : Type} : QueryResp α → Nat
  | QueryResp.success _ _ => 200
  | QueryResp.dbFailure _ => 500

/-- The filter actually applied: Python branches on the truthiness of
`request.GET.get(key)`, so an absent parameter (`None`) and the empty
string both run the unfiltered query. -/
def effFilter (p : Option String) : Option String :=
  match p with
  | none => none
  | some s => if s = "" then none else some s

/-- `get_items`: run the (possibly filtered) SELECT, shape each row
positionally, and answer `{status, count = len(data), items}`; any
exception from connect/execute/fetch answers
`{status:"error", detail}` with status 500. -/
def get_items (db : Option String → Except String (List Row11))
    (item_code : Option String) : QueryResp Item :=
  match db (effFilter item_code) with
  | Except.error e => QueryResp.dbFailure e
  | Except.ok rows => QueryResp.success (rows.map shapeItem).length (rows.map shapeItem)

/-- `get_dine_tables`: same shape over the 3-column SELECT with optional
`tableno` filter. -/
def get_dine_tables (db : Option String → Except String (List Row3))
    (tableno : Option String) : QueryResp DineTable :=
  match db (effFilter tableno) with
  | Except.error e => QueryResp.dbFailure e
  | Except.ok rows => QueryResp.success (rows.map shapeTable).length (rows.map shapeTable)

/-- `get_user_settings`: same shape over the 2-column SELECT with
optional `uid` filter. -/
def get_user_settings (db : Option String → Except String (List Row2))
    (uid : Option String) : QueryResp UserSetting :=
  match db (effFilter uid) with
  | Except.error e => QueryResp.dbFailure e
  | Except.ok rows => QueryResp.success (rows.map shapeSetting).length (rows.map shapeSetting)

/-- `get_dine_categories`: same shape over the 2-column SELECT with
optional `catagorycode` filter. -/
def get_dine_categories (db : Option String → Except String (List Row2))
    (catagorycode : Option String) : QueryResp Category :=
  match db (effFilter catagorycode) with
  | Except.error e => QueryResp.dbFailure e
  | Except.ok rows =>
    QueryResp.success (rows.map shapeCategory).length (rows.map shapeCategory)

/-- A token-protected view's full response: the `jwt_required` 401, or
the wrapped handler's response. -/
inductive ViewResp (α : Type) where
  | auth (status : Nat) (detail : String)
  | page (r : QueryResp α)
deriving DecidableEq

/-- Compose `jwt_required` with a handler, as the decorator does. -/
def guardView {α : Type} (secret algo : String) (now : Nat)
    (interp : String → Tok) (hdr : String) (body : QueryResp α) : ViewResp α :=
  match jwt_required secret algo now interp hdr with
  | AuthOutcome.tokenMissing => ViewResp.auth 401 "Token missing"
  | AuthOutcome.tokenExpired => ViewResp.auth 401 "Token expired"
  | AuthOutcome.tokenInvalid => ViewResp.auth 401 "Invalid token"
  | AuthOutcome.proceed _ => ViewResp.page body

/-- The `/items/` view: `jwt_required` wrapping `get_items`. -/
def items_view (secret algo : String) (now : Nat) (interp : String → Tok)
    (hdr : String) (db : Option String → Except String (List Row11))
    (item_code : Option String) : ViewResp Item :=
  guardView secret algo now interp hdr (get_items db item_code)

/-- The `/dine-tables/` view. -/
def dine_tables_view (secret algo : String) (now : Nat) (interp : String → Tok)
    (hdr : String) (db : Option String → Except String (List Row3))
    (tableno : Option String) : ViewResp DineTable :=
  guardView secret algo now interp hdr (get_dine_tables db tableno)

/-- The `/user-settings/` view. -/
def user_settings_view (secret algo : String) (now : Nat) (interp : String → Tok)
    (hdr : String) (db : Option String → Except String (List Row2))
    (uid : Option String) : ViewResp UserSetting :=
  guardView secret algo now interp hdr (get_user_settings db uid)

/-- The `/dine-categories/` view. -/
def dine_categories_view (secret algo : String) (now : Nat) (interp : String → Tok)
    (hdr : String) (db : Option String → Except String (List Row2))
    (catagorycode : Option String) : ViewResp Category :=
  guardView secret algo now interp hdr (get_dine_categories db catagorycode)

/-! ## `SyncService.py`: env overlay loader and IP auto-pick -/

/-- `_strip_comment`: `s.split("#", 1)[0].strip()` — everything from the
first `#` onward is removed, then the remainder is trimmed. -/
def strip_comment (s : String) : String :=
  match breakAt '#' s.data with
  | none => pyStrip s
  | some (a, _) => pyStrip ⟨a⟩

/-- `os.environ[k] = v` / `loaded[k] = v`: point update of a mapping. -/
def envUpdate (f : String → Option String) (k v : String) :
    String → Option String :=
  fun x => if x = k then some v else f x

/-- One iteration of the `for line in f` loop of `load_env`: strip the
line; skip it when empty, starting with `#`, or without `=`; otherwise
split at the first `=`, trim the key, trim and comment-strip the value,
and write the pair into both the environment and the loaded set. -/
def load_env_line (st : (String → Option String) × (String → Option String))
    (rawLine : String) : (String → Option String) × (String → Option String) :=
  let line := pyStrip rawLine
  if line = "" ∨ strHasPre "#" line = true then st
  else
    match breakAt '=' line.data with
    | none => st
    | some (ks, vs) =>
      (envUpdate st.1 (pyStrip ⟨ks⟩) (strip_comment (pyStrip ⟨vs⟩)),
       envUpdate st.2 (pyStrip ⟨ks⟩) (strip_comment (pyStrip ⟨vs⟩)))

/-- `load_env`: when the overlay file exists, fold its lines over the
process environment (starting from an empty loaded set); otherwise
return the environment unchanged and an empty loaded set. -/
def load_env (fileExists : Bool) (lines : List String)
    (env0 : String → Option String) :
    (String → Option String) × (String → Option String) :=
  if fileExists then lines.foldl load_env_line (env0, fun _ => none)
  else (env0, fun _ => none)

/-- The key/value pair a line of the overlay file contributes, `none`
for the skipped lines (empty after trimming, comment, or no `=`). -/
def lineEntry (rawLine : String) : Option (String × String) :=
  let line := pyStrip rawLine
  if line = "" ∨ strHasPre "#" line = true then none
  else
    match breakAt '=' line.data with
    | none => none
    | some (ks, vs) => some (pyStrip ⟨ks⟩, strip_comment (pyStrip ⟨vs⟩))

/-- Remove duplicates keeping the first occurrence, the
`seen`/`uniq` loop of `ipv4_candidates`. -/
def dedupFirst (seen : List String) : List String → List String
  | [] => []
  | ip :: rest =>
    if ip ∈ seen then dedupFirst seen rest
    else ip :: dedupFirst (ip :: seen) rest

/-- `ipv4_candidates`: the outbound-facing address probe (when it
succeeded), followed by the hostname's IPv4 addresses with the falsy
and loopback entries dropped, de-duplicated preserving first-seen
order. -/
def ipv4_candidates (outbound : Option String) (hostAddrs : List String) :
    List String :=
  dedupFirst []
    ((match outbound with | some ip => [ip] | none => []) ++
      hostAddrs.filter (fun ip => !(ip = "") && !(ip = "127.0.0.1")))

/-- The probe loop of `select_bind_ip` carrying the `tried` accumulator:
append each candidate to `tried` before probing it, return the first
that binds, and fall back to `"0.0.0.0"` appended as the final attempted
entry. -/
def select_bind_ip_go (binds : String → Bool) (tried : List String) :
    List String → String × List String
  | [] => ("0.0.0.0", tried ++ ["0.0.0.0"])
  | ip :: rest =>
    if binds ip then (ip, tried ++ [ip])
    else select_bind_ip_go binds (tried ++ [ip]) rest

/-- `select_bind_ip`: probe the candidates of `ipv4_candidates` in
order; `binds ip` models the success of the transient
bind-then-close socket probe on `(ip, port)`. -/
def select_bind_ip (binds : String → Bool) (outbound : Option String)
    (hostAddrs : List String) : String × List String :=
  select_bind_ip_go binds [] (ipv4_candidates outbound hostAddrs)

/-! ## Shared helper lemmas -/

theorem go_fst (binds : String → Bool) (cands : List String) :
    ∀ tried, (select_bind_ip_go binds tried cands).1
      = ((cands.find? binds).getD "0.0.0.0") := by
  induction cands with
  | nil => intro tried; rfl
  | cons ip rest ih =>
    intro tried
    by_cases h : binds ip = true
    · simp [select_bind_ip_go, h, List.find?]
    · simp only [Bool.not_eq_true] at h
      simp [select_bind_ip_go, h, List.find?, ih]

theorem go_last (binds : String → Bool) (cands : List String) :
    ∀ tried, (select_bind_ip_go binds tried cands).2.getLast?
      = some (select_bind_ip_go binds tried cands).1 := by
  induction cands with
  | nil => intro tried; simp [select_bind_ip_go]
  | cons ip rest ih =>
    intro tried
    by_cases h : binds ip = true
    · simp [select_bind_ip_go, h]
    · simp only [Bool.not_eq_true] at h
      simp [select_bind_ip_go, h, ih]

theorem go_tried_none (binds : String → Bool) (cands : List String) :
    ∀ tried, cands.find? binds = none →
      (select_bind_ip_go binds tried cands).2 = tried ++ cands ++ ["0.0.0.0"] := by
  induction cands with
  | nil => intro tried _; simp [select_bind_ip_go]
  | cons ip rest ih =>
    intro tried hf
    rw [List.find?_cons] at hf
    by_cases h : binds ip = true
    · simp [h] at hf
    · simp only [Bool.not_eq_true] at h
      simp only [h] at hf
      simp [select_bind_ip_go, h, ih _ hf]

theorem go_tried_some (binds : String → Bool) (cands : List String) (ip : String) :
    ∀ tried, cands.find? binds = some ip →
      (select_bind_ip_go binds tried cands).2
        = tried ++ cands.takeWhile (fun c => !binds c) ++ [ip] := by
  induction cands with
  | nil => intro tried hf; simp [List.find?] at hf
  | cons c rest ih =>
    intro tried hf
    rw [List.find?_cons] at hf
    by_cases h : binds c = true
    · simp only [h] at hf
      cases hf
      simp [select_bind_ip_go, h, List.takeWhile]
    · simp only [Bool.not_eq_true] at h
      simp only [h] at hf
      simp [select_bind_ip_go, h, List.takeWhile, ih _ hf]

theorem mem_dedupFirst (x : String) (l : List String) :
    ∀ seen, x ∈ dedupFirst seen l ↔ x ∈ l ∧ x ∉ seen := by
  induction l with
  | nil => intro seen; simp [dedupFirst]
  | cons a rest ih =>
    intro seen
    by_cases h : a ∈ seen
    · rw [dedupFirst, if_pos h, ih]
      simp only [List.mem_cons]
      constructor
      · rintro ⟨hx, hs⟩
        exact ⟨Or.inr hx, hs⟩
      · rintro ⟨rfl | hx, hs⟩
        · exact absurd h hs
        · exact ⟨hx, hs⟩
    · rw [dedupFirst, if_neg h]
      rw [List.mem_cons, ih (a :: seen), List.mem_cons]
      simp only [List.mem_cons]
      constructor
      · rintro (rfl | ⟨hx, hs⟩)
        · exact ⟨Or.inl rfl, h⟩
        · exact ⟨Or.inr hx, fun hc => hs (Or.inr hc)⟩
      · rintro ⟨rfl | hx, hs⟩
        · exact Or.inl rfl
        · by_cases hax : x = a
          · exact Or.inl hax
          · exact Or.inr ⟨hx, fun hc => hc.elim hax hs⟩

theorem dedupFirst_sublist (l : List String) :
    ∀ seen, (dedupFirst seen l).Sublist l := by
  induction l with
  | nil => intro seen; simp [dedupFirst]
  | cons a rest ih =>
    intro seen
    by_cases h : a ∈ seen
    · simp only [dedupFirst, if_pos h]
      exact (ih seen).cons a
    · simp only [dedupFirst, if_neg h]
      exact (ih (a :: seen)).cons₂ a

theorem dedupFirst_nodup (l : List String) :
    ∀ seen, (dedupFirst seen l).Nodup := by
  induction l with
  | nil => intro seen; simp [dedupFirst]
  | cons a rest ih =>
    intro seen
    by_cases h : a ∈ seen
    · simp only [dedupFirst, if_pos h]
      exact ih seen
    · simp only [dedupFirst, if_neg h]
      refine List.Nodup.cons ?_ (ih (a :: seen))
      intro hm
      exact ((mem_dedupFirst a rest (a :: seen)).mp hm).2 (List.mem_cons_self a seen)

theorem load_env_line_eq
    (st : (String → Option String) × (String → Option String))
    (rawLine : String) :
    load_env_line st rawLine
      = match lineEntry rawLine with
        | none => st
        | some (k, v) => (envUpdate st.1 k v, envUpdate st.2 k v) := by
  unfold load_env_line lineEntry
  by_cases h : pyStrip rawLine = "" ∨ strHasPre "#" (pyStrip rawLine) = true
  · simp [h]
  · simp only [h, if_false]
    cases hb : breakAt '=' (pyStrip rawLine).data with
    | none => simp
    | some p => cases p; simp

theorem load_env_foldl (key : String) (lines : List String) :
    ∀ st : (String → Option String) × (String → Option String),
      ((lines.foldl load_env_line st).1 key
        = (lines.filterMap lineEntry).foldl
            (fun acc p => if p.1 = key then some p.2 else acc) (st.1 key))
      ∧ ((lines.foldl load_env_line st).2 key
        = (lines.filterMap lineEntry).foldl
            (fun acc p => if p.1 = key then some p.2 else acc) (st.2 key)) := by
  induction lines with
  | nil => intro st; exact ⟨rfl, rfl⟩
  | cons l ls ih =>
    intro st
    cases hl : lineEntry l with
    | none =>
      simp only [List.foldl_cons, List.filterMap_cons, hl, load_env_line_eq st l]
      exact ih st
    | some p =>
      obtain ⟨k, v⟩ := p
      simp only [List.foldl_cons, List.filterMap_cons, hl, load_env_line_eq st l]
      have hup : ∀ f : String → Option String,
          envUpdate f k v key = if k = key then some v else f key := by
        intro f
        by_cases hk : k = key
        · subst hk; simp [envUpdate]
        · have hk2 : ¬key = k := fun h1 => hk h1.symm
          simp [envUpdate, hk, hk2]
      constructor
      · rw [(ih _).1]
        simp only [hup]
      · rw [(ih _).2]
        simp only [hup]

/-- A header of the exact form `"Bearer " ++ t` extracts the token `t`. -/
theorem extract_token_bearer (t : String) :
    extract_token ("Bearer " ++ t) = some t := by
  obtain ⟨cs⟩ := t
  show extract_token ⟨'B' :: 'e' :: 'a' :: 'r' :: 'e' :: 'r' :: ' ' :: cs⟩ = some ⟨cs⟩
  unfold extract_token strHasPre
  simp [breakAt, List.isPrefixOf]

/-! ## Claim theorems: authentication -/

/-- **C1.** For every `(userid, password)` pair whose trimmed values match a
stored credential record (the parameterized `SELECT` returns a row),
`login` answers success carrying a token signed with the configured
secret and algorithm, whose payload has subject the trimmed submitted
userid and expiry `now + 7 days`; decoding that token immediately, with
the same secret and algorithm, succeeds and returns that subject. -/
theorem login_valid_token_roundtrip (secret algo : String) (now : Nat)
    (db : String → String → Except String (Option (String × String)))
    (data : LoginBody) (r1 r2 : String)
    (hu : pyStrip (data.userid.getD "") ≠ "")
    (hp : pyStrip (data.password.getD "") ≠ "")
    (hdb : db (pyStrip (data.userid.getD "")) (pyStrip (data.password.getD ""))
      = Except.ok (some (r1, r2))) :
    login secret algo now db (Except.ok data)
      = LoginResp.success r1
          (Tok.signed (pyStrip (data.userid.getD "")) (now + 7 * 86400) secret algo)
    ∧ jwtDecode secret algo now
        (Tok.signed (pyStrip (data.userid.getD "")) (now + 7 * 86400) secret algo)
      = DecodeResult.ok (pyStrip (data.userid.getD "")) := by
  constructor
  · simp [login, hu, hp, hdb]
  · simp [jwtDecode]

/-- Witness for C1 at a concrete credential store. -/
theorem login_valid_token_roundtrip_witness :
    login "sec" "HS256" 100
        (fun u p => if u = "alice" && p = "pw" then
          Except.ok (some ("alice", "pw")) else Except.ok none)
        (Except.ok ⟨some " alice ", some "pw"⟩)
      = LoginResp.success "alice"
          (Tok.signed (pyStrip ((some " alice ").getD "")) (100 + 7 * 86400) "sec" "HS256")
    ∧ jwtDecode "sec" "HS256" 100
        (Tok.signed (pyStrip ((some " alice ").getD "")) (100 + 7 * 86400) "sec" "HS256")
      = DecodeResult.ok (pyStrip ((some " alice ").getD "")) :=
  login_valid_token_roundtrip "sec" "HS256" 100
    (fun u p => if u = "alice" && p = "pw" then
      Except.ok (some ("alice", "pw")) else Except.ok none)
    ⟨some " alice ", some "pw"⟩ "alice" "pw"
    (by decide) (by decide) rfl

/-- **C2.** `jwt_required` partitions failures: a header not starting with
`"Bearer "` (in particular the absent-header default `""`), or one whose
extracted token is empty, answers `tokenMissing`; a correctly signed
token past its expiry answers `tokenExpired`; a malformed string, or a
token signed with a different secret or algorithm, answers
`tokenInvalid`; a correctly signed unexpired token proceeds with the
payload's subject.  The failure responses carry status 401 with details
"Token missing" / "Token expired" / "Invalid token" respectively. -/
theorem jwt_required_failure_partition (secret algo : String) (now : Nat)
    (interp : String → Tok) (hdr t sub secret2 algo2 s : String) (exp : Nat) :
    (strHasPre "Bearer " hdr = false →
      jwt_required secret algo now interp hdr = AuthOutcome.tokenMissing)
    ∧ jwt_required secret algo now interp "" = AuthOutcome.tokenMissing
    ∧ jwt_required secret algo now interp "Bearer " = AuthOutcome.tokenMissing
    ∧ (t ≠ "" → interp t = Tok.signed sub exp secret algo → exp ≤ now →
        jwt_required secret algo now interp ("Bearer " ++ t) = AuthOutcome.tokenExpired)
    ∧ (t ≠ "" → interp t = Tok.malformed s →
        jwt_required secret algo now interp ("Bearer " ++ t) = AuthOutcome.tokenInvalid)
    ∧ (t ≠ "" → interp t = Tok.signed sub exp secret2 algo2 →
        (secret2 ≠ secret ∨ algo2 ≠ algo) →
        jwt_required secret algo now interp ("Bearer " ++ t) = AuthOutcome.tokenInvalid)
    ∧ (t ≠ "" → interp t = Tok.signed sub exp secret algo → now < exp →
        jwt_required secret algo now interp ("Bearer " ++ t) = AuthOutcome.proceed sub)
    ∧ authStatusDetail AuthOutcome.tokenMissing = some (401, "Token missing")
    ∧ authStatusDetail AuthOutcome.tokenExpired = some (401, "Token expired")
    ∧ authStatusDetail AuthOutcome.tokenInvalid = some (401, "Invalid token") := by
  refine ⟨?_, rfl, rfl, ?_, ?_, ?_, ?_, rfl, rfl, rfl⟩
  · intro h
    unfold jwt_required extract_token
    simp [h]
  · intro ht hi hle
    unfold jwt_required
    rw [extract_token_bearer]
    simp [ht, hi, jwtDecode, hle]
  · intro ht hi
    unfold jwt_required
    rw [extract_token_bearer]
    simp [ht, hi, jwtDecode]
  · intro ht hi hbad
    unfold jwt_required
    rw [extract_token_bearer]
    rcases hbad with hb | hb <;> simp [ht, hi, jwtDecode, hb]
  · intro ht hi hlt
    unfold jwt_required
    rw [extract_token_bearer]
    simp [ht, hi, jwtDecode, Nat.not_le.mpr hlt]

/-- Witness for C2 exercising each branch at concrete tokens. -/
theorem jwt_required_failure_partition_witness :
    jwt_required "sec" "HS256" 5
        (fun w => if w = "good" then Tok.signed "u" 10 "sec" "HS256"
          else if w = "old" then Tok.signed "u" 3 "sec" "HS256"
          else if w = "bad" then Tok.signed "u" 10 "other" "HS256"
          else Tok.malformed w) "Token abc" = AuthOutcome.tokenMissing
    ∧ jwt_required "sec" "HS256" 5
        (fun w => if w = "good" then Tok.signed "u" 10 "sec" "HS256"
          else if w = "old" then Tok.signed "u" 3 "sec" "HS256"
          else if w = "bad" then Tok.signed "u" 10 "other" "HS256"
          else Tok.malformed w) "" = AuthOutcome.tokenMissing
    ∧ jwt_required "sec" "HS256" 5
        (fun w => if w = "good" then Tok.signed "u" 10 "sec" "HS256"
          else if w = "old" then Tok.signed "u" 3 "sec" "HS256"
          else if w = "bad" then Tok.signed "u" 10 "other" "HS256"
          else Tok.malformed w) ("Bearer " ++ "old") = AuthOutcome.tokenExpired
    ∧ jwt_required "sec" "HS256" 5
        (fun w => if w = "good" then Tok.signed "u" 10 "sec" "HS256"
          else if w = "old" then Tok.signed "u" 3 "sec" "HS256"
          else if w = "bad" then Tok.signed "u" 10 "other" "HS256"
          else Tok.malformed w) ("Bearer " ++ "zzz") = AuthOutcome.tokenInvalid
    ∧ jwt_required "sec" "HS256" 5
        (fun w => if w = "good" then Tok.signed "u" 10 "sec" "HS256"
          else if w = "old" then Tok.signed "u" 3 "sec" "HS256"
          else if w = "bad" then Tok.signed "u" 10 "other" "HS256"
          else Tok.malformed w) ("Bearer " ++ "bad") = AuthOutcome.tokenInvalid
    ∧ jwt_required "sec" "HS256" 5
        (fun w => if w = "good" then Tok.signed "u" 10 "sec" "HS256"
          else if w = "old" then Tok.signed "u" 3 "sec" "HS256"
          else if w = "bad" then Tok.signed "u" 10 "other" "HS256"
          else Tok.malformed w) ("Bearer " ++ "good") = AuthOutcome.proceed "u" :=
  ⟨(jwt_required_failure_partition "sec" "HS256" 5 _ "Token abc" "x" "u" "o" "a" "m" 0).1
      (by decide),
   (jwt_required_failure_partition "sec" "HS256" 5 _ "h" "x" "u" "o" "a" "m" 0).2.1,
   (jwt_required_failure_partition "sec" "HS256" 5 _ "h" "old" "u" "o" "a" "m" 3).2.2.2.1
      (by decide) (by decide) (by decide),
   (jwt_required_failure_partition "sec" "HS256" 5 _ "h" "zzz" "u" "o" "a" "zzz" 0).2.2.2.2.1
      (by decide) (by decide),
   (jwt_required_failure_partition "sec" "HS256" 5 _ "h" "bad" "u" "other" "HS256" "m"
      10).2.2.2.2.2.1 (by decide) (by decide) (Or.inl (by decide)),
   (jwt_required_failure_partition "sec" "HS256" 5 _ "h" "good" "u" "o" "a" "m"
      10).2.2.2.2.2.2.1 (by decide) (by decide) (by decide)⟩

/-- **C5.** `login` trims both fields and fails fast: an unparsable body
answers 400 "Invalid JSON"; a userid or password empty after trimming
answers 400 "userid & password required" without consulting the
database (the response is the same for every database); a well-formed
request matching no credential row answers 401 "Invalid credentials"; a
database failure answers 500 with the error message. -/
theorem login_error_paths (secret algo : String) (now : Nat)
    (db db2 : String → String → Except String (Option (String × String)))
    (data : LoginBody) (e : String) :
    login secret algo now db (Except.error ()) = LoginResp.invalidJson
    ∧ loginStatus LoginResp.invalidJson = 400
    ∧ (pyStrip (data.userid.getD "") = "" ∨ pyStrip (data.password.getD "") = "" →
        login secret algo now db (Except.ok data) = LoginResp.missingField
        ∧ login secret algo now db (Except.ok data)
            = login secret algo now db2 (Except.ok data))
    ∧ loginStatus LoginResp.missingField = 400
    ∧ (pyStrip (data.userid.getD "") ≠ "" → pyStrip (data.password.getD "") ≠ "" →
        db (pyStrip (data.userid.getD "")) (pyStrip (data.password.getD ""))
            = Except.ok none →
        login secret algo now db (Except.ok data) = LoginResp.invalidCredentials)
    ∧ loginStatus LoginResp.invalidCredentials = 401
    ∧ (pyStrip (data.userid.getD "") ≠ "" → pyStrip (data.password.getD "") ≠ "" →
        db (pyStrip (data.userid.getD "")) (pyStrip (data.password.getD ""))
            = Except.error e →
        login secret algo now db (Except.ok data) = LoginResp.dbError e)
    ∧ loginStatus (LoginResp.dbError e) = 500 := by
  refine ⟨rfl, rfl, ?_, rfl, ?_, rfl, ?_, rfl⟩
  · intro h
    rcases h with h | h <;> constructor <;> simp [login, h]
  · intro hu hp hdb
    simp [login, hu, hp, hdb]
  · intro hu hp hdb
    simp [login, hu, hp, hdb]

/-- Witness for C5 exercising each error path at concrete inputs. -/
theorem login_error_paths_witness :
    login "sec" "HS256" 0 (fun _ _ => Except.ok none) (Except.error ())
      = LoginResp.invalidJson
    ∧ login "sec" "HS256" 0 (fun _ _ => Except.ok none) (Except.ok ⟨some "  ", some "pw"⟩)
      = LoginResp.missingField
    ∧ login "sec" "HS256" 0 (fun _ _ => Except.ok none)
        (Except.ok ⟨some "  ", some "pw"⟩)
      = login "sec" "HS256" 0 (fun _ _ => Except.error "down")
          (Except.ok ⟨some "  ", some "pw"⟩)
    ∧ login "sec" "HS256" 0 (fun _ _ => Except.ok none) (Except.ok ⟨some "u", some "pw"⟩)
      = LoginResp.invalidCredentials
    ∧ login "sec" "HS256" 0 (fun _ _ => Except.error "down")
        (Except.ok ⟨some "u", some "pw"⟩)
      = LoginResp.dbError "down" :=
  ⟨(login_error_paths "sec" "HS256" 0 (fun _ _ => Except.ok none)
      (fun _ _ => Except.ok none) ⟨some "u", some "pw"⟩ "down").1,
   ((login_error_paths "sec" "HS256" 0 (fun _ _ => Except.ok none)
      (fun _ _ => Except.error "down") ⟨some "  ", some "pw"⟩ "down").2.2.1
      (Or.inl (by decide))).1,
   ((login_error_paths "sec" "HS256" 0 (fun _ _ => Except.ok none)
      (fun _ _ => Except.error "down") ⟨some "  ", some "pw"⟩ "down").2.2.1
      (Or.inl (by decide))).2,
   (login_error_paths "sec" "HS256" 0 (fun _ _ => Except.ok none)
      (fun _ _ => Except.ok none) ⟨some "u", some "pw"⟩ "down").2.2.2.2.1
      (by decide) (by decide) rfl,
   (login_error_paths "sec" "HS256" 0 (fun _ _ => Except.error "down")
      (fun _ _ => Except.ok none) ⟨some "u", some "pw"⟩ "down").2.2.2.2.2.2.1
      (by decide) (by decide) rfl⟩

/-- **C6.** `pair_check` compares the submitted password to the configured
pairing secret by exact, case-sensitive string equality: any submitted
value different from the configured secret (including an absent field,
and the concrete case `"imc-mobile"` against `"IMC-MOBILE"`) answers
401 "Invalid password", and the exactly equal string never does. -/
theorem pair_check_exact_match (pairPwd submitted : String)
    (exeExists running : Bool) (launch : Except String Unit) :
    (submitted ≠ pairPwd →
      pair_check pairPwd (Except.ok (some submitted)) exeExists running launch
        = PairResp.invalidPassword)
    ∧ pair_check pairPwd (Except.ok none) exeExists running launch
        = PairResp.invalidPassword
    ∧ pair_check pairPwd (Except.ok (some pairPwd)) exeExists running launch
        ≠ PairResp.invalidPassword
    ∧ pair_check "IMC-MOBILE" (Except.ok (some "imc-mobile")) exeExists running launch
        = PairResp.invalidPassword
    ∧ pairStatus PairResp.invalidPassword = 401 := by
  refine ⟨?_, by simp [pair_check], ?_, ?_, rfl⟩
  · intro h
    simp [pair_check, h]
  · unfold pair_check
    simp only [ne_eq, Option.some.injEq, not_true_eq_false, if_false, ite_not]
    cases exeExists <;> cases running <;> cases launch <;> simp
  · simp [pair_check]

/-- Witness for C6 at concrete passwords. -/
theorem pair_check_exact_match_witness :
    pair_check "IMC-MOBILE" (Except.ok (some "imc-mobile!")) true false (Except.ok ())
      = PairResp.invalidPassword
    ∧ pair_check "IMC-MOBILE" (Except.ok none) true false (Except.ok ())
      = PairResp.invalidPassword
    ∧ pair_check "IMC-MOBILE" (Except.ok (some "IMC-MOBILE")) true false (Except.ok ())
      ≠ PairResp.invalidPassword
    ∧ pair_check "IMC-MOBILE" (Except.ok (some "imc-mobile")) true false (Except.ok ())
      = PairResp.invalidPassword :=
  ⟨(pair_check_exact_match "IMC-MOBILE" "imc-mobile!" true false (Except.ok ())).1
      (by decide),
   (pair_check_exact_match "IMC-MOBILE" "imc-mobile!" true false (Except.ok ())).2.1,
   (pair_check_exact_match "IMC-MOBILE" "imc-mobile!" true false (Except.ok ())).2.2.1,
   (pair_check_exact_match "IMC-MOBILE" "imc-mobile!" true false (Except.ok ())).2.2.2.1⟩

/-- **C9, counterexample.** The claim says the pairing password is
non-empty for *every* environment state, including the variable set to
the empty string; but `os.getenv("PAIR_PASSWORD", "IMC-MOBILE")`
substitutes the default only when the variable is unset, so an
environment with `PAIR_PASSWORD=""` makes the value used by `pair_check`
the empty string. -/
theorem pair_password_empty_counterexample :
    PAIR_PASSWORD (fun k => if k = "PAIR_PASSWORD" then some "" else none) = "" := by
  decide

/-- **C9, amended.** The signing secret `JWT_SECRET` is never empty (the
default `"dev-secret-change-me"` is substituted both when the variable
is unset and when it is set to the empty string, via Python `or`);
the pairing password substitutes its default `"IMC-MOBILE"` only when
the variable is unset, and otherwise uses the set value verbatim —
including the empty string. -/
theorem secrets_default_amended (env : String → Option String) (v : String) :
    JWT_SECRET env ≠ ""
    ∧ (env "JWT_SECRET" = none → JWT_SECRET env = "dev-secret-change-me")
    ∧ (env "JWT_SECRET" = some "" → JWT_SECRET env = "dev-secret-change-me")
    ∧ (env "PAIR_PASSWORD" = none → PAIR_PASSWORD env = "IMC-MOBILE")
    ∧ (env "PAIR_PASSWORD" = some v → PAIR_PASSWORD env = v) := by
  refine ⟨?_, ?_, ?_, ?_, ?_⟩
  · unfold JWT_SECRET
    cases h : env "JWT_SECRET" with
    | none => decide
    | some s =>
      by_cases hs : s = "" <;> simp [hs]
  · intro h
    simp [JWT_SECRET, h]
  · intro h
    simp [JWT_SECRET, h]
  · intro h
    simp [PAIR_PASSWORD, pyGetenv, h]
  · intro h
    simp [PAIR_PASSWORD, pyGetenv, h]

/-- Witness for the amended C9 at concrete environments. -/
theorem secrets_default_amended_witness :
    JWT_SECRET (fun _ => none) ≠ ""
    ∧ JWT_SECRET (fun _ => none) = "dev-secret-change-me"
    ∧ JWT_SECRET (fun k => if k = "JWT_SECRET" then some "" else none)
        = "dev-secret-change-me"
    ∧ PAIR_PASSWORD (fun _ => none) = "IMC-MOBILE"
    ∧ PAIR_PASSWORD (fun k => if k = "PAIR_PASSWORD" then some "x" else none) = "x" :=
  ⟨(secrets_default_amended (fun _ => none) "x").1,
   (secrets_default_amended (fun _ => none) "x").2.1 rfl,
   (secrets_default_amended (fun k => if k = "JWT_SECRET" then some "" else none)
      "x").2.2.1 (by decide),
   (secrets_default_amended (fun _ => none) "x").2.2.2.1 rfl,
   (secrets_default_amended (fun k => if k = "PAIR_PASSWORD" then some "x" else none)
      "x").2.2.2.2 (by decide)⟩

/-- **C3.** Each query endpoint, under a valid token and a successful
query, answers success with `count` equal to the number of rows
fetched and the collection equal to the rows shaped positionally into
named records in unchanged order (index `i` of the collection is the
shaping of row `i`); a filter matching no row yields count 0 and an
empty collection. -/
theorem query_success_shape_order (secret algo : String) (now : Nat)
    (interp : String → Tok) (hdr sub : String) (i : Nat)
    (dbI dbI0 : Option String → Except String (List Row11)) (fI : Option String)
    (rowsI : List Row11)
    (dbT : Option String → Except String (List Row3)) (fT : Option String)
    (rowsT : List Row3)
    (dbU : Option String → Except String (List Row2)) (fU : Option String)
    (rowsU : List Row2)
    (dbC : Option String → Except String (List Row2)) (fC : Option String)
    (rowsC : List Row2)
    (hAuth : jwt_required secret algo now interp hdr = AuthOutcome.proceed sub)
    (hI : dbI (effFilter fI) = Except.ok rowsI)
    (hI0 : dbI0 (effFilter (some "ABC")) = Except.ok [])
    (hT : dbT (effFilter fT) = Except.ok rowsT)
    (hU : dbU (effFilter fU) = Except.ok rowsU)
    (hC : dbC (effFilter fC) = Except.ok rowsC) :
    items_view secret algo now interp hdr dbI fI
      = ViewResp.page (QueryResp.success rowsI.length (rowsI.map shapeItem))
    ∧ (rowsI.map shapeItem).length = rowsI.length
    ∧ (rowsI.map shapeItem).get? i = (rowsI.get? i).map shapeItem
    ∧ items_view secret algo now interp hdr dbI0 (some "ABC")
      = ViewResp.page (QueryResp.success 0 [])
    ∧ dine_tables_view secret algo now interp hdr dbT fT
      = ViewResp.page (QueryResp.success rowsT.length (rowsT.map shapeTable))
    ∧ (rowsT.map shapeTable).get? i = (rowsT.get? i).map shapeTable
    ∧ user_settings_view secret algo now interp hdr dbU fU
      = ViewResp.page (QueryResp.success rowsU.length (rowsU.map shapeSetting))
    ∧ (rowsU.map shapeSetting).get? i = (rowsU.get? i).map shapeSetting
    ∧ dine_categories_view secret algo now interp hdr dbC fC
      = ViewResp.page (QueryResp.success rowsC.length (rowsC.map shapeCategory))
    ∧ (rowsC.map shapeCategory).get? i = (rowsC.get? i).map shapeCategory := by
  refine ⟨?_, by simp, by simp, ?_, ?_, by simp, ?_, by simp, ?_, by simp⟩
  · simp [items_view, guardView, hAuth, get_items, hI]
  · simp [items_view, guardView, hAuth, get_items, hI0]
  · simp [dine_tables_view, guardView, hAuth, get_dine_tables, hT]
  · simp [user_settings_view, guardView, hAuth, get_user_settings, hU]
  · simp [dine_categories_view, guardView, hAuth, get_dine_categories, hC]

/-- Witness for C3 at a concrete token, stores and rows. -/
theorem query_success_shape_order_witness :
    items_view "sec" "HS256" 5 (fun _ => Tok.signed "u" 10 "sec" "HS256") "Bearer t"
        (fun _ => Except.ok
          [⟨some "I1", some "n1", some "1", none, none, some "k", some "1",
            none, some "Food", some "5", none⟩,
           ⟨some "I2", some "n2", some "2", none, none, some "k", some "1",
            none, some "Drink", some "5", none⟩]) none
      = ViewResp.page (QueryResp.success
          ([(⟨some "I1", some "n1", some "1", none, none, some "k", some "1",
              none, some "Food", some "5", none⟩ : Row11),
            ⟨some "I2", some "n2", some "2", none, none, some "k", some "1",
              none, some "Drink", some "5", none⟩].length)
          ([(⟨some "I1", some "n1", some "1", none, none, some "k", some "1",
              none, some "Food", some "5", none⟩ : Row11),
            ⟨some "I2", some "n2", some "2", none, none, some "k", some "1",
              none, some "Drink", some "5", none⟩].map shapeItem))
    ∧ ([(⟨some "I1", some "n1", some "1", none, none, some "k", some "1",
          none, some "Food", some "5", none⟩ : Row11),
        ⟨some "I2", some "n2", some "2", none, none, some "k", some "1",
          none, some "Drink", some "5", none⟩].map shapeItem).get? 1
      = ([(⟨some "I1", some "n1", some "1", none, none, some "k", some "1",
            none, some "Food", some "5", none⟩ : Row11),
          ⟨some "I2", some "n2", some "2", none, none, some "k", some "1",
            none, some "Drink", some "5", none⟩].get? 1).map shapeItem
    ∧ items_view "sec" "HS256" 5 (fun _ => Tok.signed "u" 10 "sec" "HS256") "Bearer t"
        (fun f => if f = none then Except.ok
          [⟨some "I1", some "n1", some "1", none, none, some "k", some "1",
            none, some "Food", some "5", none⟩] else Except.ok []) (some "ABC")
      = ViewResp.page (QueryResp.success 0 [])
    ∧ dine_tables_view "sec" "HS256" 5 (fun _ => Tok.signed "u" 10 "sec" "HS256")
        "Bearer t" (fun _ => Except.ok [⟨some "T01", some "desc", some "A"⟩])
        (some "T01")
      = ViewResp.page (QueryResp.success
          ([(⟨some "T01", some "desc", some "A"⟩ : Row3)].length)
          ([(⟨some "T01", some "desc", some "A"⟩ : Row3)].map shapeTable))
    ∧ user_settings_view "sec" "HS256" 5 (fun _ => Tok.signed "u" 10 "sec" "HS256")
        "Bearer t" (fun _ => Except.ok [⟨some "U1", some "c1"⟩]) none
      = ViewResp.page (QueryResp.success
          ([(⟨some "U1", some "c1"⟩ : Row2)].length)
          ([(⟨some "U1", some "c1"⟩ : Row2)].map shapeSetting))
    ∧ dine_categories_view "sec" "HS256" 5 (fun _ => Tok.signed "u" 10 "sec" "HS256")
        "Bearer t" (fun _ => Except.ok [⟨some "FD", some "Food"⟩]) none
      = ViewResp.page (QueryResp.success
          ([(⟨some "FD", some "Food"⟩ : Row2)].length)
          ([(⟨some "FD", some "Food"⟩ : Row2)].map shapeCategory)) := by
  have h := query_success_shape_order "sec" "HS256" 5
    (fun _ => Tok.signed "u" 10 "sec" "HS256") "Bearer t" "u" 1
    (fun _ => Except.ok
      [⟨some "I1", some "n1", some "1", none, none, some "k", some "1",
        none, some "Food", some "5", none⟩,
       ⟨some "I2", some "n2", some "2", none, none, some "k", some "1",
        none, some "Drink", some "5", none⟩])
    (fun f => if f = none then Except.ok
      [⟨some "I1", some "n1", some "1", none, none, some "k", some "1",
        none, some "Food", some "5", none⟩] else Except.ok []) none
    [⟨some "I1", some "n1", some "1", none, none, some "k", some "1",
      none, some "Food", some "5", none⟩,
     ⟨some "I2", some "n2", some "2", none, none, some "k", some "1",
      none, some "Drink", some "5", none⟩]
    (fun _ => Except.ok [⟨some "T01", some "desc", some "A"⟩]) (some "T01")
    [⟨some "T01", some "desc", some "A"⟩]
    (fun _ => Except.ok [⟨some "U1", some "c1"⟩]) none [⟨some "U1", some "c1"⟩]
    (fun _ => Except.ok [⟨some "FD", some "Food"⟩]) none [⟨some "FD", some "Food"⟩]
    (by decide) rfl rfl rfl rfl rfl
  exact ⟨h.1, h.2.2.1, h.2.2.2.1, h.2.2.2.2.1, h.2.2.2.2.2.2.1, h.2.2.2.2.2.2.2.2.1⟩

/-- **C4.** Each query endpoint, under a valid token, converts any
database failure (connect, execute or fetch) into
`{status:"error", detail}` with HTTP status 500; the handler is a total
function on every database outcome, so no exception escapes it. -/
theorem query_db_failure_500 (secret algo : String) (now : Nat)
    (interp : String → Tok) (hdr sub e : String)
    (dbI : Option String → Except String (List Row11)) (fI : Option String)
    (dbT : Option String → Except String (List Row3)) (fT : Option String)
    (dbU : Option String → Except String (List Row2)) (fU : Option String)
    (dbC : Option String → Except String (List Row2)) (fC : Option String)
    (hAuth : jwt_required secret algo now interp hdr = AuthOutcome.proceed sub)
    (hEI : dbI (effFilter fI) = Except.error e)
    (hET : dbT (effFilter fT) = Except.error e)
    (hEU : dbU (effFilter fU) = Except.error e)
    (hEC : dbC (effFilter fC) = Except.error e) :
    items_view secret algo now interp hdr dbI fI
      = ViewResp.page (QueryResp.dbFailure e)
    ∧ dine_tables_view secret algo now interp hdr dbT fT
      = ViewResp.page (QueryResp.dbFailure e)
    ∧ user_settings_view secret algo now interp hdr dbU fU
      = ViewResp.page (QueryResp.dbFailure e)
    ∧ dine_categories_view secret algo now interp hdr dbC fC
      = ViewResp.page (QueryResp.dbFailure e)
    ∧ queryStatus (QueryResp.dbFailure e : QueryResp Item) = 500 := by
  refine ⟨?_, ?_, ?_, ?_, rfl⟩
  · simp [items_view, guardView, hAuth, get_items, hEI]
  · simp [dine_tables_view, guardView, hAuth, get_dine_tables, hET]
  · simp [user_settings_view, guardView, hAuth, get_user_settings, hEU]
  · simp [dine_categories_view, guardView, hAuth, get_dine_categories, hEC]

/-- Witness for C4 at a concrete failing database. -/
theorem query_db_failure_500_witness :
    items_view "sec" "HS256" 5 (fun _ => Tok.signed "u" 10 "sec" "HS256") "Bearer t"
        (fun _ => Except.error "connection refused") none
      = ViewResp.page (QueryResp.dbFailure "connection refused")
    ∧ dine_tables_view "sec" "HS256" 5 (fun _ => Tok.signed "u" 10 "sec" "HS256")
        "Bearer t" (fun _ => Except.error "connection refused") none
      = ViewResp.page (QueryResp.dbFailure "connection refused")
    ∧ user_settings_view "sec" "HS256" 5 (fun _ => Tok.signed "u" 10 "sec" "HS256")
        "Bearer t" (fun _ => Except.error "connection refused") none
      = ViewResp.page (QueryResp.dbFailure "connection refused")
    ∧ dine_categories_view "sec" "HS256" 5 (fun _ => Tok.signed "u" 10 "sec" "HS256")
        "Bearer t" (fun _ => Except.error "connection refused") none
      = ViewResp.page (QueryResp.dbFailure "connection refused")
    ∧ queryStatus (QueryResp.dbFailure "connection refused" : QueryResp Item) = 500 :=
  query_db_failure_500 "sec" "HS256" 5 (fun _ => Tok.signed "u" 10 "sec" "HS256")
    "Bearer t" "u" "connection refused"
    (fun _ => Except.error "connection refused") none
    (fun _ => Except.error "connection refused") none
    (fun _ => Except.error "connection refused") none
    (fun _ => Except.error "connection refused") none
    (by decide) rfl rfl rfl rfl

/-- **C10.** On every query endpoint a filter parameter present but equal
to the empty string is treated exactly like an absent parameter: the
handler's response (and the whole token-guarded view's response) is the
same function of the database in both cases, so the unfiltered query
runs and the full collection is returned. -/
theorem empty_filter_like_absent (secret algo : String) (now : Nat)
    (interp : String → Tok) (hdr : String)
    (dbI : Option String → Except String (List Row11))
    (dbT : Option String → Except String (List Row3))
    (dbU dbC : Option String → Except String (List Row2)) :
    get_items dbI (some "") = get_items dbI none
    ∧ get_dine_tables dbT (some "") = get_dine_tables dbT none
    ∧ get_user_settings dbU (some "") = get_user_settings dbU none
    ∧ get_dine_categories dbC (some "") = get_dine_categories dbC none
    ∧ items_view secret algo now interp hdr dbI (some "")
      = items_view secret algo now interp hdr dbI none
    ∧ dine_tables_view secret algo now interp hdr dbT (some "")
      = dine_tables_view secret algo now interp hdr dbT none
    ∧ user_settings_view secret algo now interp hdr dbU (some "")
      = user_settings_view secret algo now interp hdr dbU none
    ∧ dine_categories_view secret algo now interp hdr dbC (some "")
      = dine_categories_view secret algo now interp hdr dbC none :=
  ⟨rfl, rfl, rfl, rfl, rfl, rfl, rfl, rfl⟩

/-- **C7.** The Network Selector probes its candidates (the outbound
probe address followed by the hostname addresses with falsy and
loopback entries excluded, de-duplicated preserving first-seen order —
a `Nodup` sublist of the raw enumeration with the same members) in
order: the returned address is the first candidate that binds, or the
literal `"0.0.0.0"` recorded as the final attempted entry when none
does, and it is always the last element of the attempted list.
Selection is a total function of the probe outcomes: it never raises. -/
theorem network_selector_spec (binds : String → Bool) (outbound : Option String)
    (hostAddrs : List String) (ip x : String) :
    (select_bind_ip binds outbound hostAddrs).2.getLast?
      = some (select_bind_ip binds outbound hostAddrs).1
    ∧ (select_bind_ip binds outbound hostAddrs).1
      = ((ipv4_candidates outbound hostAddrs).find? binds).getD "0.0.0.0"
    ∧ ((ipv4_candidates outbound hostAddrs).find? binds = none →
        (select_bind_ip binds outbound hostAddrs).1 = "0.0.0.0"
        ∧ (select_bind_ip binds outbound hostAddrs).2
          = ipv4_candidates outbound hostAddrs ++ ["0.0.0.0"])
    ∧ ((ipv4_candidates outbound hostAddrs).find? binds = some ip →
        binds ip = true
        ∧ (select_bind_ip binds outbound hostAddrs).1 = ip
        ∧ ip ∈ ipv4_candidates outbound hostAddrs
        ∧ (select_bind_ip binds outbound hostAddrs).2
          = (ipv4_candidates outbound hostAddrs).takeWhile (fun c => !binds c)
            ++ [ip])
    ∧ (ipv4_candidates outbound hostAddrs).Nodup
    ∧ (ipv4_candidates outbound hostAddrs).Sublist
        ((match outbound with | some o => [o] | none => []) ++
          hostAddrs.filter (fun a => !(a = "") && !(a = "127.0.0.1")))
    ∧ (x ∈ ipv4_candidates outbound hostAddrs ↔
        x ∈ (match outbound with | some o => [o] | none => []) ++
          hostAddrs.filter (fun a => !(a = "") && !(a = "127.0.0.1"))) := by
  refine ⟨go_last binds _ [], go_fst binds _ [], ?_, ?_, dedupFirst_nodup _ [],
    dedupFirst_sublist _ [], ?_⟩
  · intro hf
    refine ⟨?_, ?_⟩
    · unfold select_bind_ip
      rw [go_fst binds _ [], hf]
      rfl
    · simpa using go_tried_none binds _ [] hf
  · intro hf
    refine ⟨List.find?_some hf, ?_, List.mem_of_find?_eq_some hf, ?_⟩
    · unfold select_bind_ip
      rw [go_fst binds _ [], hf]
      rfl
    · simpa using go_tried_some binds _ ip [] hf
  · unfold ipv4_candidates
    rw [mem_dedupFirst]
    simp

/-- Witness for C7 on a concrete interface enumeration, once with a
bindable candidate and once with every probe failing. -/
theorem network_selector_spec_witness :
    (select_bind_ip (fun s => s == "10.0.0.5") (some "192.168.1.7")
        ["192.168.1.7", "127.0.0.1", "", "10.0.0.5", "10.0.0.5"]).1 = "10.0.0.5"
    ∧ (select_bind_ip (fun s => s == "10.0.0.5") (some "192.168.1.7")
        ["192.168.1.7", "127.0.0.1", "", "10.0.0.5", "10.0.0.5"]).2
      = (ipv4_candidates (some "192.168.1.7")
          ["192.168.1.7", "127.0.0.1", "", "10.0.0.5", "10.0.0.5"]).takeWhile
            (fun c => !(c == "10.0.0.5")) ++ ["10.0.0.5"]
    ∧ (select_bind_ip (fun _ => false) (some "192.168.1.7")
        ["192.168.1.7", "127.0.0.1", "", "10.0.0.5", "10.0.0.5"]).1 = "0.0.0.0"
    ∧ (select_bind_ip (fun _ => false) (some "192.168.1.7")
        ["192.168.1.7", "127.0.0.1", "", "10.0.0.5", "10.0.0.5"]).2
      = ipv4_candidates (some "192.168.1.7")
          ["192.168.1.7", "127.0.0.1", "", "10.0.0.5", "10.0.0.5"] ++ ["0.0.0.0"]
    ∧ (select_bind_ip (fun _ => false) (some "192.168.1.7")
        ["192.168.1.7", "127.0.0.1", "", "10.0.0.5", "10.0.0.5"]).2.getLast?
      = some (select_bind_ip (fun _ => false) (some "192.168.1.7")
          ["192.168.1.7", "127.0.0.1", "", "10.0.0.5", "10.0.0.5"]).1 :=
  ⟨((network_selector_spec (fun s => s == "10.0.0.5") (some "192.168.1.7")
      ["192.168.1.7", "127.0.0.1", "", "10.0.0.5", "10.0.0.5"] "10.0.0.5"
      "x").2.2.2.1 (by decide)).2.1,
   ((network_selector_spec (fun s => s == "10.0.0.5") (some "192.168.1.7")
      ["192.168.1.7", "127.0.0.1", "", "10.0.0.5", "10.0.0.5"] "10.0.0.5"
      "x").2.2.2.1 (by decide)).2.2.2,
   ((network_selector_spec (fun _ => false) (some "192.168.1.7")
      ["192.168.1.7", "127.0.0.1", "", "10.0.0.5", "10.0.0.5"] "ip"
      "x").2.2.1 (by decide)).1,
   ((network_selector_spec (fun _ => false) (some "192.168.1.7")
      ["192.168.1.7", "127.0.0.1", "", "10.0.0.5", "10.0.0.5"] "ip"
      "x").2.2.1 (by decide)).2,
   (network_selector_spec (fun _ => false) (some "192.168.1.7")
      ["192.168.1.7", "127.0.0.1", "", "10.0.0.5", "10.0.0.5"] "ip" "x").1⟩

/-- **C8.** `load_env` processes exactly the lines that are non-empty
after trimming, do not start with `#`, and contain `=`: the resulting
environment and loaded set at any key are the left fold of the
processed lines' (trimmed key, trimmed comment-stripped value) pairs
over, respectively, the prior environment value and nothing — so each
processed pair is written to both, later lines win, and skipped lines
change nothing.  Concretely, a `DB_DSN=testdsn` line loads the value
exactly `"testdsn"`, and an absent file leaves the environment
unchanged. -/
theorem load_env_characterization (lines : List String)
    (env0 : String → Option String) (key rawLine : String) :
    (load_env true lines env0).1 key
      = (lines.filterMap lineEntry).foldl
          (fun acc p => if p.1 = key then some p.2 else acc) (env0 key)
    ∧ (load_env true lines env0).2 key
      = (lines.filterMap lineEntry).foldl
          (fun acc p => if p.1 = key then some p.2 else acc) none
    ∧ (pyStrip rawLine = "" ∨ strHasPre "#" (pyStrip rawLine) = true ∨
        breakAt '=' (pyStrip rawLine).data = none → lineEntry rawLine = none)
    ∧ lineEntry "DB_DSN=testdsn # comment" = some ("DB_DSN", "testdsn")
    ∧ (load_env true ["DB_DSN=testdsn"] env0).1 "DB_DSN" = some "testdsn"
    ∧ (load_env false lines env0).1 key = env0 key := by
  refine ⟨?_, ?_, ?_, by decide, ?_, by simp [load_env]⟩
  · simpa [load_env] using (load_env_foldl key lines (env0, fun _ => none)).1
  · simpa [load_env] using (load_env_foldl key lines (env0, fun _ => none)).2
  · intro h
    rcases h with h | h | h
    · simp [lineEntry, h]
    · simp [lineEntry, h]
    · unfold lineEntry
      by_cases hc : pyStrip rawLine = "" ∨ strHasPre "#" (pyStrip rawLine) = true
      · simp [hc]
      · simp [hc, h]
  · have h := (load_env_foldl "DB_DSN" ["DB_DSN=testdsn"] (env0, fun _ => none)).1
    have he : List.filterMap lineEntry ["DB_DSN=testdsn"] = [("DB_DSN", "testdsn")] := by
      decide
    rw [he] at h
    simpa [load_env] using h

/-- Witness for C8: skipped lines of each kind, the comment-stripping
scenario, and the concrete `DB_DSN` load. -/
theorem load_env_characterization_witness :
    lineEntry "# only a comment" = none
    ∧ lineEntry "   " = none
    ∧ lineEntry "no equals sign" = none
    ∧ lineEntry "DB_DSN=testdsn # comment" = some ("DB_DSN", "testdsn")
    ∧ (load_env true ["DB_DSN=testdsn"] (fun _ => none)).1 "DB_DSN" = some "testdsn"
    ∧ (load_env true ["A=1", "A=2 # note"] (fun _ => none)).1 "A"
      = (["A=1", "A=2 # note"].filterMap lineEntry).foldl
          (fun acc p => if p.1 = "A" then some p.2 else acc)
          ((fun (_ : String) => (none : Option String)) "A") :=
  ⟨(load_env_characterization [] (fun _ => none) "k" "# only a comment").2.2.1
      (Or.inr (Or.inl (by decide))),
   (load_env_characterization [] (fun _ => none) "k" "   ").2.2.1
      (Or.inl (by decide)),
   (load_env_characterization [] (fun _ => none) "k" "no equals sign").2.2.1
      (Or.inr (Or.inr (by decide))),
   (load_env_characterization [] (fun _ => none) "k" "x").2.2.2.1,
   (load_env_characterization [] (fun _ => none) "k" "x").2.2.2.2.1,
   (load_env_characterization ["A=1", "A=2 # note"] (fun _ => none) "A" "x").1⟩

end DineKot
